import Mathlib

/-!
Shallow embedding of the feature-compatibility gate of
glslang/MachineIndependent/Versions.cpp (as vendored in this repository):
extension registry defaults, behavior-state updates with implication
propagation, the compatibility-gate checks, and the preamble builder.

Diagnostics are modelled explicitly: read-only gate checks return the list
of messages they would emit to the diagnostic sink; directive processing
returns the updated parse state, whose messages field accumulates sink
output.  The AMD_EXTENSIONS / NV_EXTENSIONS conditional blocks are not
compiled into this build and are omitted.
-/

namespace Glslang

/-- TExtensionBehavior from the glslang headers.  EBhMissing is the derived
query result for an identifier absent from the registry; it is never stored. -/
inductive TExtensionBehavior where
  | EBhMissing
  | EBhRequire
  | EBhEnable
  | EBhWarn
  | EBhDisable
  | EBhDisablePartial
deriving DecidableEq, Repr

/-- EProfile: the active profile of a compile unit is exactly one of these. -/
inductive EProfile where
  | ENoProfile
  | ECoreProfile
  | ECompatibilityProfile
  | EEsProfile
deriving DecidableEq, Repr

/-- The bit each profile occupies in a profile mask
(ENoProfile is bit 0, ..., EEsProfile is bit 3). -/
def EProfile.bit : EProfile → Nat
  | .ENoProfile => 1
  | .ECoreProfile => 2
  | .ECompatibilityProfile => 4
  | .EEsProfile => 8

/-- Modelled from the spec: the profile-name string used in diagnostics
(ProfileName is declared in a header that is not part of src/). -/
def ProfileName : EProfile → String
  | .ENoProfile => "none"
  | .ECoreProfile => "core"
  | .ECompatibilityProfile => "compatibility"
  | .EEsProfile => "es"

/-- One message sent to the diagnostic sink: error(...), warn(...), or an
infoSink.info.message with EPrefixWarning or EPrefixNone. -/
inductive Diag where
  | err (msg featureDesc extra : String)
  | warnMsg (msg featureDesc extra : String)
  | infoWarn (text : String)
  | infoNone (text : String)
deriving DecidableEq, Repr

/-- Whether a sink message is a hard error. -/
def Diag.isError : Diag → Bool
  | .err _ _ _ => true
  | _ => false

/-- Lookup in the extension-behavior table (TMap find). -/
def findExt : List (String × TExtensionBehavior) → String → Option TExtensionBehavior
  | [], _ => none
  | (k, v) :: rest, e => if k = e then some v else findExt rest e

/-- Assign through an extension-behavior table iterator: replaces the value at
an existing key, leaves the table unchanged if the key is absent. -/
def setExt : List (String × TExtensionBehavior) → String → TExtensionBehavior →
    List (String × TExtensionBehavior)
  | [], _, _ => []
  | (k, v) :: rest, e, b => if k = e then (k, b) :: rest else (k, v) :: setExt rest e b

/-- The per-compile-unit state read and written by TParseVersions:
compile configuration, the extension-behavior table, the requested-extension
record kept in the intermediate, and the diagnostic sink contents. -/
structure TParseVersions where
  profile : EProfile
  version : Nat
  forwardCompatible : Bool
  suppressWarnings : Bool
  relaxedErrors : Bool
  vulkanGlsl : Nat
  openGlSpv : Nat
  extensionBehavior : List (String × TExtensionBehavior)
  requestedExtensions : List String
  messages : List Diag
deriving DecidableEq, Repr

/-- TParseVersions::initializeExtensionBehavior: the registry defaults. -/
def initializeExtensionBehavior : List (String × TExtensionBehavior) :=
  [("GL_OES_texture_3D", .EBhDisable),
   ("GL_OES_standard_derivatives", .EBhDisable),
   ("GL_EXT_frag_depth", .EBhDisable),
   ("GL_OES_EGL_image_external", .EBhDisable),
   ("GL_EXT_shader_texture_lod", .EBhDisable),
   ("GL_EXT_shadow_samplers", .EBhDisable),
   ("GL_ARB_texture_rectangle", .EBhDisable),
   ("GL_3DL_array_objects", .EBhDisable),
   ("GL_ARB_shading_language_420pack", .EBhDisable),
   ("GL_ARB_texture_gather", .EBhDisable),
   ("GL_ARB_gpu_shader5", .EBhDisablePartial),
   ("GL_ARB_separate_shader_objects", .EBhDisable),
   ("GL_ARB_compute_shader", .EBhDisable),
   ("GL_ARB_tessellation_shader", .EBhDisable),
   ("GL_ARB_enhanced_layouts", .EBhDisable),
   ("GL_ARB_texture_cube_map_array", .EBhDisable),
   ("GL_ARB_shader_texture_lod", .EBhDisable),
   ("GL_ARB_explicit_attrib_location", .EBhDisable),
   ("GL_ARB_shader_image_load_store", .EBhDisable),
   ("GL_ARB_shader_atomic_counters", .EBhDisable),
   ("GL_ARB_shader_draw_parameters", .EBhDisable),
   ("GL_ARB_shader_group_vote", .EBhDisable),
   ("GL_ARB_derivative_control", .EBhDisable),
   ("GL_ARB_shader_texture_image_samples", .EBhDisable),
   ("GL_ARB_viewport_array", .EBhDisable),
   ("GL_ARB_gpu_shader_int64", .EBhDisable),
   ("GL_ARB_shader_ballot", .EBhDisable),
   ("GL_ARB_sparse_texture2", .EBhDisable),
   ("GL_ARB_sparse_texture_clamp", .EBhDisable),
   ("GL_ARB_shader_stencil_export", .EBhDisable),
   ("GL_ARB_post_depth_coverage", .EBhDisable),
   ("GL_ARB_shader_viewport_layer_array", .EBhDisable),
   ("GL_EXT_shader_non_constant_global_initializers", .EBhDisable),
   ("GL_EXT_shader_image_load_formatted", .EBhDisable),
   ("GL_EXT_post_depth_coverage", .EBhDisable),
   ("GL_GOOGLE_cpp_style_line_directive", .EBhDisable),
   ("GL_GOOGLE_include_directive", .EBhDisable),
   ("GL_ANDROID_extension_pack_es31a", .EBhDisable),
   ("GL_KHR_blend_equation_advanced", .EBhDisable),
   ("GL_OES_sample_variables", .EBhDisable),
   ("GL_OES_shader_image_atomic", .EBhDisable),
   ("GL_OES_shader_multisample_interpolation", .EBhDisable),
   ("GL_OES_texture_storage_multisample_2d_array", .EBhDisable),
   ("GL_EXT_geometry_shader", .EBhDisable),
   ("GL_EXT_geometry_point_size", .EBhDisable),
   ("GL_EXT_gpu_shader5", .EBhDisable),
   ("GL_EXT_primitive_bounding_box", .EBhDisable),
   ("GL_EXT_shader_io_blocks", .EBhDisable),
   ("GL_EXT_tessellation_shader", .EBhDisable),
   ("GL_EXT_tessellation_point_size", .EBhDisable),
   ("GL_EXT_texture_buffer", .EBhDisable),
   ("GL_EXT_texture_cube_map_array", .EBhDisable),
   ("GL_OES_geometry_shader", .EBhDisable),
   ("GL_OES_geometry_point_size", .EBhDisable),
   ("GL_OES_gpu_shader5", .EBhDisable),
   ("GL_OES_primitive_bounding_box", .EBhDisable),
   ("GL_OES_shader_io_blocks", .EBhDisable),
   ("GL_OES_tessellation_shader", .EBhDisable),
   ("GL_OES_tessellation_point_size", .EBhDisable),
   ("GL_OES_texture_buffer", .EBhDisable),
   ("GL_OES_texture_cube_map_array", .EBhDisable),
   ("GL_EXT_device_group", .EBhDisable),
   ("GL_EXT_multiview", .EBhDisable),
   ("GL_OVR_multiview", .EBhDisable),
   ("GL_OVR_multiview2", .EBhDisable)]

/-- The identifiers the build-time registry knows about. -/
def registryNames : List String := initializeExtensionBehavior.map Prod.fst

/-- TParseVersions::getExtensionBehavior. -/
def getExtensionBehavior (s : TParseVersions) (extension : String) : TExtensionBehavior :=
  match findExt s.extensionBehavior extension with
  | none => .EBhMissing
  | some b => b

/-- TParseVersions::requireProfile. -/
def requireProfile (s : TParseVersions) (profileMask : Nat) (featureDesc : String) :
    List Diag :=
  if s.profile.bit &&& profileMask = 0 then
    [.err "not supported with this profile:" featureDesc (ProfileName s.profile)]
  else
    []

/-- The loop body of TParseVersions::profileRequires: accumulates whether the
feature is permitted so far and the usage warnings emitted for EBhWarn. -/
def profileRequiresCheck (s : TParseVersions) (featureDesc : String)
    (acc : Bool × List Diag) (extension : String) : Bool × List Diag :=
  match getExtensionBehavior s extension with
  | .EBhWarn =>
      (true, acc.2 ++ [.infoWarn ("extension " ++ extension ++ " is being used for " ++ featureDesc)])
  | .EBhRequire => (true, acc.2)
  | .EBhEnable => (true, acc.2)
  | _ => acc

/-- TParseVersions::profileRequires (entry point taking multiple extensions). -/
def profileRequires (s : TParseVersions) (profileMask minVersion : Nat)
    (extensions : List String) (featureDesc : String) : List Diag :=
  if s.profile.bit &&& profileMask ≠ 0 then
    let okay : Bool := decide (minVersion > 0) && decide (s.version ≥ minVersion)
    let r := extensions.foldl (profileRequiresCheck s featureDesc) (okay, [])
    r.2 ++
      (if r.1 then []
       else [.err "not supported for this version or the enabled extensions" featureDesc ""])
  else
    []

/-- TParseVersions::profileRequires (entry point taking a single extension;
a null extension pointer yields zero extensions). -/
def profileRequiresSingle (s : TParseVersions) (profileMask minVersion : Nat)
    (extension : Option String) (featureDesc : String) : List Diag :=
  profileRequires s profileMask minVersion
    (match extension with
     | none => []
     | some e => [e])
    featureDesc

/-- TParseVersions::checkDeprecated. -/
def checkDeprecated (s : TParseVersions) (profileMask depVersion : Nat)
    (featureDesc : String) : List Diag :=
  if s.profile.bit &&& profileMask ≠ 0 then
    if s.version ≥ depVersion then
      if s.forwardCompatible then
        [.err "deprecated, may be removed in future release" featureDesc ""]
      else if ¬ s.suppressWarnings then
        [.infoWarn (featureDesc ++ " deprecated in version " ++ toString depVersion ++
                    "; may be removed in future release")]
      else
        []
    else
      []
  else
    []

/-- The second loop of TParseVersions::checkExtensionsRequested: promotes a
stored EBhDisable to EBhWarn under relaxedErrors and emits usage warnings. -/
def checkExtensionsWarn (s : TParseVersions) (featureDesc : String)
    (acc : Bool × List Diag) (extension : String) : Bool × List Diag :=
  let behavior := getExtensionBehavior s extension
  let promoted :=
    if behavior = .EBhDisable ∧ s.relaxedErrors then
      (TExtensionBehavior.EBhWarn,
       acc.2 ++ [Diag.infoWarn "The following extension must be enabled to use this feature:"])
    else
      (behavior, acc.2)
  if promoted.1 = .EBhWarn then
    (true, promoted.2 ++ [.infoWarn ("extension " ++ extension ++ " is being used for " ++ featureDesc)])
  else
    (acc.1, promoted.2)

/-- TParseVersions::checkExtensionsRequested: returns whether at least one
extension is requested, together with the warnings emitted. -/
def checkExtensionsRequested (s : TParseVersions) (extensions : List String)
    (featureDesc : String) : Bool × List Diag :=
  if extensions.any (fun e =>
       getExtensionBehavior s e = .EBhEnable ∨ getExtensionBehavior s e = .EBhRequire) then
    (true, [])
  else
    extensions.foldl (checkExtensionsWarn s featureDesc) (false, [])

/-- TParseVersions::requireExtensions. -/
def requireExtensions (s : TParseVersions) (extensions : List String)
    (featureDesc : String) : List Diag :=
  let r := checkExtensionsRequested s extensions featureDesc
  if r.1 then
    r.2
  else
    r.2 ++
      (if extensions.length = 1 then
        [.err "required extension not requested:" featureDesc (extensions.headD "")]
       else
        Diag.err "required extension not requested:" featureDesc "Possible extensions include:"
          :: extensions.map (fun e => Diag.infoNone e))

/-- TParseVersions::updateExtensionBehavior(const char*, TExtensionBehavior):
the state change of a single directive, without propagation. -/
def updateExtensionBehavior (s : TParseVersions) (extension : String)
    (behavior : TExtensionBehavior) : TParseVersions :=
  if extension = "all" then
    if behavior = .EBhRequire ∨ behavior = .EBhEnable then
      { s with messages := s.messages ++
          [.err "extension 'all' cannot have 'require' or 'enable' behavior" "#extension" ""] }
    else
      { s with extensionBehavior := s.extensionBehavior.map (fun kv => (kv.1, behavior)) }
  else
    match findExt s.extensionBehavior extension with
    | none =>
      match behavior with
      | .EBhRequire =>
          { s with messages := s.messages ++ [.err "extension not supported:" "#extension" extension] }
      | .EBhEnable =>
          { s with messages := s.messages ++ [.warnMsg "extension not supported:" "#extension" extension] }
      | .EBhWarn =>
          { s with messages := s.messages ++ [.warnMsg "extension not supported:" "#extension" extension] }
      | .EBhDisable =>
          { s with messages := s.messages ++ [.warnMsg "extension not supported:" "#extension" extension] }
      | _ => s
    | some prev =>
      let s1 :=
        if prev = .EBhDisablePartial then
          { s with messages := s.messages ++
              [.warnMsg "extension is only partially supported:" "#extension" extension] }
        else
          s
      let s2 :=
        if behavior = .EBhEnable ∨ behavior = .EBhRequire then
          { s1 with requestedExtensions := s1.requestedExtensions ++ [extension] }
        else
          s1
      { s2 with extensionBehavior := setExt s2.extensionBehavior extension behavior }

/-- The implication edges walked by
TParseVersions::updateExtensionBehavior(int, const char*, const char*):
the extensions a directive on the given identifier propagates to. -/
def extensionTargets (extension : String) : List String :=
  if extension = "GL_ANDROID_extension_pack_es31a" then
    ["GL_KHR_blend_equation_advanced",
     "GL_OES_sample_variables",
     "GL_OES_shader_image_atomic",
     "GL_OES_shader_multisample_interpolation",
     "GL_OES_texture_storage_multisample_2d_array",
     "GL_EXT_geometry_shader",
     "GL_EXT_gpu_shader5",
     "GL_EXT_primitive_bounding_box",
     "GL_EXT_shader_io_blocks",
     "GL_EXT_tessellation_shader",
     "GL_EXT_texture_buffer",
     "GL_EXT_texture_cube_map_array"]
  else if extension = "GL_EXT_geometry_shader" then
    ["GL_EXT_shader_io_blocks"]
  else if extension = "GL_OES_geometry_shader" then
    ["GL_OES_shader_io_blocks"]
  else if extension = "GL_EXT_tessellation_shader" then
    ["GL_EXT_shader_io_blocks"]
  else if extension = "GL_OES_tessellation_shader" then
    ["GL_OES_shader_io_blocks"]
  else if extension = "GL_GOOGLE_include_directive" then
    ["GL_GOOGLE_cpp_style_line_directive"]
  else
    []

/-- Mapping a directive behavior token to a TExtensionBehavior. -/
def mapBehaviorToken (behaviorString : String) : Option TExtensionBehavior :=
  if behaviorString = "require" then some .EBhRequire
  else if behaviorString = "enable" then some .EBhEnable
  else if behaviorString = "disable" then some .EBhDisable
  else if behaviorString = "warn" then some .EBhWarn
  else none

/-- TParseVersions::updateExtensionBehavior(int, const char*, const char*):
behavior-token parsing, the single-extension update, and recursive
propagation along the implication edges.  The recursion of the source is
bounded by the static implication graph (depth at most 3); the fuel
argument makes that bound explicit. -/
def updateExtensionBehaviorStr : Nat → TParseVersions → String → String → TParseVersions
  | 0, s, _, _ => s
  | Nat.succ fuel, s, extension, behaviorString =>
    match mapBehaviorToken behaviorString with
    | none =>
        { s with messages := s.messages ++ [.err "behavior not supported:" "#extension" behaviorString] }
    | some behavior =>
        let s1 := updateExtensionBehavior s extension behavior
        (extensionTargets extension).foldl
          (fun st e => updateExtensionBehaviorStr fuel st e behaviorString) s1

/-- The directive-processor entry point: fuel 3 covers the deepest chain of
the implication graph (umbrella, then geometry or tessellation, then
io-blocks). -/
def applyDirective (s : TParseVersions) (extension behaviorString : String) : TParseVersions :=
  updateExtensionBehaviorStr 3 s extension behaviorString

/-- The sequence of identifiers whose behavior a directive writes, in
update order, including repeats from overlapping implication chains. -/
def updateSeq : Nat → String → List String
  | 0, _ => []
  | Nat.succ fuel, extension =>
      extension :: (extensionTargets extension).flatMap (fun e => updateSeq fuel e)

/-- The transitive implication set of the GL_ANDROID_extension_pack_es31a
umbrella directive, together with the umbrella itself: the twelve directly
listed extensions (GL_EXT_shader_io_blocks is also reached transitively
through the geometry and tessellation edges). -/
def aepClosure : List String :=
  ["GL_ANDROID_extension_pack_es31a",
   "GL_KHR_blend_equation_advanced",
   "GL_OES_sample_variables",
   "GL_OES_shader_image_atomic",
   "GL_OES_shader_multisample_interpolation",
   "GL_OES_texture_storage_multisample_2d_array",
   "GL_EXT_geometry_shader",
   "GL_EXT_gpu_shader5",
   "GL_EXT_primitive_bounding_box",
   "GL_EXT_shader_io_blocks",
   "GL_EXT_tessellation_shader",
   "GL_EXT_texture_buffer",
   "GL_EXT_texture_cube_map_array"]

/-- The macro-definition lines of the EEsProfile branch of getPreamble. -/
def esProfileLines : List String :=
  ["#define GL_ES 1\n",
   "#define GL_FRAGMENT_PRECISION_HIGH 1\n",
   "#define GL_OES_texture_3D 1\n",
   "#define GL_OES_standard_derivatives 1\n",
   "#define GL_EXT_frag_depth 1\n",
   "#define GL_OES_EGL_image_external 1\n",
   "#define GL_EXT_shader_texture_lod 1\n",
   "#define GL_EXT_shadow_samplers 1\n",
   "#define GL_ANDROID_extension_pack_es31a 1\n",
   "#define GL_KHR_blend_equation_advanced 1\n",
   "#define GL_OES_sample_variables 1\n",
   "#define GL_OES_shader_image_atomic 1\n",
   "#define GL_OES_shader_multisample_interpolation 1\n",
   "#define GL_OES_texture_storage_multisample_2d_array 1\n",
   "#define GL_EXT_geometry_shader 1\n",
   "#define GL_EXT_geometry_point_size 1\n",
   "#define GL_EXT_gpu_shader5 1\n",
   "#define GL_EXT_primitive_bounding_box 1\n",
   "#define GL_EXT_shader_io_blocks 1\n",
   "#define GL_EXT_tessellation_shader 1\n",
   "#define GL_EXT_tessellation_point_size 1\n",
   "#define GL_EXT_texture_buffer 1\n",
   "#define GL_EXT_texture_cube_map_array 1\n",
   "#define GL_OES_geometry_shader 1\n",
   "#define GL_OES_geometry_point_size 1\n",
   "#define GL_OES_gpu_shader5 1\n",
   "#define GL_OES_primitive_bounding_box 1\n",
   "#define GL_OES_shader_io_blocks 1\n",
   "#define GL_OES_tessellation_shader 1\n",
   "#define GL_OES_tessellation_point_size 1\n",
   "#define GL_OES_texture_buffer 1\n",
   "#define GL_OES_texture_cube_map_array 1\n",
   "#define GL_EXT_shader_non_constant_global_initializers 1\n"]

/-- The macro-definition lines of the non-ES branch of getPreamble, before
the version-dependent additions. -/
def nonEsProfileLines : List String :=
  ["#define GL_FRAGMENT_PRECISION_HIGH 1\n",
   "#define GL_ARB_texture_rectangle 1\n",
   "#define GL_ARB_shading_language_420pack 1\n",
   "#define GL_ARB_texture_gather 1\n",
   "#define GL_ARB_gpu_shader5 1\n",
   "#define GL_ARB_separate_shader_objects 1\n",
   "#define GL_ARB_compute_shader 1\n",
   "#define GL_ARB_tessellation_shader 1\n",
   "#define GL_ARB_enhanced_layouts 1\n",
   "#define GL_ARB_texture_cube_map_array 1\n",
   "#define GL_ARB_shader_texture_lod 1\n",
   "#define GL_ARB_explicit_attrib_location 1\n",
   "#define GL_ARB_shader_image_load_store 1\n",
   "#define GL_ARB_shader_atomic_counters 1\n",
   "#define GL_ARB_shader_draw_parameters 1\n",
   "#define GL_ARB_shader_group_vote 1\n",
   "#define GL_ARB_derivative_control 1\n",
   "#define GL_ARB_shader_texture_image_samples 1\n",
   "#define GL_ARB_viewport_array 1\n",
   "#define GL_ARB_gpu_shader_int64 1\n",
   "#define GL_ARB_shader_ballot 1\n",
   "#define GL_ARB_sparse_texture2 1\n",
   "#define GL_ARB_sparse_texture_clamp 1\n",
   "#define GL_ARB_shader_stencil_export 1\n",
   "#define GL_ARB_post_depth_coverage 1\n",
   "#define GL_EXT_shader_non_constant_global_initializers 1\n",
   "#define GL_EXT_shader_image_load_formatted 1\n",
   "#define GL_EXT_post_depth_coverage 1\n"]

/-- TParseVersions::getPreamble, as its sequence of appended lines. -/
def getPreambleLines (s : TParseVersions) : List String :=
  (if s.profile = .EEsProfile then
     esProfileLines
   else
     nonEsProfileLines ++
       (if s.version ≥ 150 then
          ["#define GL_core_profile 1\n"] ++
            (if s.profile = .ECompatibilityProfile then
              ["#define GL_compatibility_profile 1\n"]
             else [])
        else []))
  ++ (if (s.profile ≠ .EEsProfile ∧ s.version ≥ 140) ∨
         (s.profile = .EEsProfile ∧ s.version ≥ 310) then
        ["#define GL_EXT_device_group 1\n", "#define GL_EXT_multiview 1\n"]
      else [])
  ++ (if s.version ≥ 300 then
        ["#define GL_OVR_multiview 1\n", "#define GL_OVR_multiview2 1\n"]
      else [])
  ++ ["#define GL_GOOGLE_cpp_style_line_directive 1\n",
      "#define GL_GOOGLE_include_directive 1\n"]
  ++ (if s.vulkanGlsl > 0 then
        ["#define VULKAN " ++ toString s.vulkanGlsl ++ "\n"]
      else [])
  ++ (if s.openGlSpv > 0 then
        ["#define GL_SPIRV " ++ toString s.openGlSpv ++ "\n"]
      else [])

/-- TParseVersions::getPreamble: both branches overwrite the output string
before appending, so the prior contents of the argument are discarded. -/
def getPreamble (s : TParseVersions) (preamble : String) : String :=
  String.join (getPreambleLines s)

/-- Whether an extension's resolved behavior lets a gated feature through
(the EBhWarn, EBhRequire, EBhEnable arms of the profileRequires loop). -/
def extPermits (s : TParseVersions) (e : String) : Bool :=
  match getExtensionBehavior s e with
  | .EBhWarn => true
  | .EBhRequire => true
  | .EBhEnable => true
  | _ => false

/-- The usage warning the profileRequires loop emits for an extension whose
behavior is EBhWarn. -/
def warnDiagOf (s : TParseVersions) (fd e : String) : Option Diag :=
  if getExtensionBehavior s e = .EBhWarn then
    some (.infoWarn ("extension " ++ e ++ " is being used for " ++ fd))
  else
    none

/-- A concrete compile-unit state used to instantiate universally quantified
theorems: ES profile, version 100, defaults from the registry. -/
def exampleState : TParseVersions :=
  { profile := .EEsProfile, version := 100, forwardCompatible := false,
    suppressWarnings := false, relaxedErrors := false, vulkanGlsl := 0, openGlSpv := 0,
    extensionBehavior := initializeExtensionBehavior, requestedExtensions := [],
    messages := [] }

/-- A concrete desktop compile-unit state: compatibility profile, version 400. -/
def compatState : TParseVersions :=
  { exampleState with profile := .ECompatibilityProfile, version := 400 }

/-- The example state with the relaxed-errors lenient mode switched on. -/
def relaxedState : TParseVersions :=
  { exampleState with relaxedErrors := true }

/-- The inputs getPreamble reads: active profile, version, and the two
target-configuration versions. -/
def configEq (s t : TParseVersions) : Prop :=
  s.profile = t.profile ∧ s.version = t.version ∧
    s.vulkanGlsl = t.vulkanGlsl ∧ s.openGlSpv = t.openGlSpv

/-! ### Helper lemmas -/

lemma countP_isError_warnDiags (s : TParseVersions) (fd : String) (exts : List String) :
    (exts.filterMap (warnDiagOf s fd)).countP Diag.isError = 0 := by
  induction exts with
  | nil => rfl
  | cons e rest ih =>
    cases h : warnDiagOf s fd e with
    | none => simp [List.filterMap_cons, h, ih]
    | some d =>
      have hfalse : d.isError = false := by
        unfold warnDiagOf at h
        split at h
        · cases h; rfl
        · cases h
      simp [List.filterMap_cons, h, List.countP_cons, hfalse, ih]

lemma profileRequires_foldl (s : TParseVersions) (fd : String) :
    ∀ (exts : List String) (ok : Bool) (ds : List Diag),
    exts.foldl (profileRequiresCheck s fd) (ok, ds)
      = (ok || exts.any (extPermits s), ds ++ exts.filterMap (warnDiagOf s fd)) := by
  intro exts
  induction exts with
  | nil => intro ok ds; simp
  | cons e rest ih =>
    intro ok ds
    cases h : getExtensionBehavior s e <;>
      simp [profileRequiresCheck, h, ih, extPermits, warnDiagOf]

/-! ### Claim theorems -/

/-- C3: profileRequires emits no diagnostic when the active profile is not
in the mask; when it is, it emits no error exactly when minVersion is
positive and the version reaches it or some listed extension resolves to
Enable, Require or Warn (each Warn match also emitting its usage warning),
and otherwise it emits exactly the single version-or-extension error. -/
theorem profileRequires_correct (s : TParseVersions) (profileMask minVersion : Nat)
    (exts : List String) (fd : String) :
    (s.profile.bit &&& profileMask = 0 →
      profileRequires s profileMask minVersion exts fd = [])
    ∧ (s.profile.bit &&& profileMask ≠ 0 →
        (((minVersion > 0 ∧ s.version ≥ minVersion) ∨ ∃ e ∈ exts, extPermits s e = true) →
          (profileRequires s profileMask minVersion exts fd).countP Diag.isError = 0)
        ∧ (¬ ((minVersion > 0 ∧ s.version ≥ minVersion) ∨ ∃ e ∈ exts, extPermits s e = true) →
          profileRequires s profileMask minVersion exts fd
            = [.err "not supported for this version or the enabled extensions" fd ""])
        ∧ (∀ e ∈ exts, getExtensionBehavior s e = .EBhWarn →
            Diag.infoWarn ("extension " ++ e ++ " is being used for " ++ fd)
              ∈ profileRequires s profileMask minVersion exts fd)) := by
  refine ⟨fun h => by simp [profileRequires, h], fun hmask => ⟨?_, ?_, ?_⟩⟩
  · intro hok
    simp only [profileRequires, if_pos hmask, profileRequires_foldl]
    rcases hok with hver | ⟨e, he, hp⟩
    · have hb : (decide (minVersion > 0) && decide (s.version ≥ minVersion)) = true := by
        simp [hver.1, hver.2]
      simp [hb, countP_isError_warnDiags]
    · have hb : exts.any (extPermits s) = true := List.any_eq_true.mpr ⟨e, he, hp⟩
      simp [hb, countP_isError_warnDiags]
  · intro hnot
    push_neg at hnot
    obtain ⟨hver, hext⟩ := hnot
    have hok : (decide (minVersion > 0) && decide (s.version ≥ minVersion)) = false := by
      rcases Nat.lt_or_ge s.version minVersion with h | h
      · simp [Nat.not_le.mpr h]
      · have : ¬ minVersion > 0 := fun hpos => absurd h (by simpa using hver hpos)
        simp [this]
    have hany : exts.any (extPermits s) = false := by
      rw [Bool.eq_false_iff]
      intro hc
      obtain ⟨e, he, hp⟩ := List.any_eq_true.mp hc
      exact absurd hp (by simp [hext e he])
    have hfm : exts.filterMap (warnDiagOf s fd) = [] := by
      rw [List.filterMap_eq_nil_iff]
      intro e he
      have hp := hext e he
      unfold warnDiagOf
      unfold extPermits at hp
      split
      · rename_i hw; rw [hw] at hp; simp at hp
      · rfl
    simp [profileRequires, if_pos hmask, profileRequires_foldl, hok, hany, hfm]
  · intro e he hw
    have hfm : Diag.infoWarn ("extension " ++ e ++ " is being used for " ++ fd)
        ∈ exts.filterMap (warnDiagOf s fd) :=
      List.mem_filterMap.mpr ⟨e, he, by simp [warnDiagOf, hw]⟩
    simp only [profileRequires, if_pos hmask, profileRequires_foldl]
    exact List.mem_append_left _ hfm

/-- Witness for profileRequires_correct: in the example state (ES, version
100), a feature gated on ES version 300 with no extensions draws exactly the
version-or-extension error, and one gated on ES version 100 draws nothing. -/
theorem profileRequires_correct_witness :
    profileRequires exampleState 8 300 [] "f"
      = [.err "not supported for this version or the enabled extensions" "f" ""]
    ∧ (profileRequires exampleState 8 100 [] "f").countP Diag.isError = 0 := by
  constructor
  · exact ((profileRequires_correct exampleState 8 300 [] "f").2 (by decide)).2.1
      (by rintro (⟨_, h⟩ | ⟨e, he, _⟩)
          · exact absurd h (by decide)
          · cases he)
  · exact ((profileRequires_correct exampleState 8 100 [] "f").2 (by decide)).1
      (Or.inl (by decide))

/-- C9: requireProfile emits exactly one profile error when the active
profile bit is not in the allowed mask and nothing when it is, and its
output depends only on the active profile (never on version, extension
state, or the rest of the configuration). -/
theorem requireProfile_correct (s : TParseVersions) (profileMask : Nat) (fd : String) :
    (requireProfile s profileMask fd).countP Diag.isError
      = (if s.profile.bit &&& profileMask = 0 then 1 else 0)
    ∧ ((s.profile.bit &&& profileMask = 0 →
         requireProfile s profileMask fd
           = [.err "not supported with this profile:" fd (ProfileName s.profile)])
       ∧ (s.profile.bit &&& profileMask ≠ 0 → requireProfile s profileMask fd = []))
    ∧ (∀ s2 : TParseVersions, s2.profile = s.profile →
        requireProfile s2 profileMask fd = requireProfile s profileMask fd) := by
  refine ⟨?_, ⟨fun h => by simp [requireProfile, h], fun h => by simp [requireProfile, h]⟩,
          fun s2 h => by simp [requireProfile, h]⟩
  by_cases h : s.profile.bit &&& profileMask = 0 <;> simp [requireProfile, h, Diag.isError]

/-- Witness for requireProfile_correct: with the ES example state, a
core-or-compatibility mask draws the profile error and an ES mask does not;
changing version and extension state leaves the result unchanged. -/
theorem requireProfile_correct_witness :
    requireProfile exampleState 6 "f" = [.err "not supported with this profile:" "f" "es"]
    ∧ requireProfile exampleState 8 "f" = []
    ∧ requireProfile { exampleState with version := 460, extensionBehavior := [] } 6 "f"
        = requireProfile exampleState 6 "f" := by
  refine ⟨(requireProfile_correct exampleState 6 "f").2.1.1 (by decide),
          (requireProfile_correct exampleState 8 "f").2.1.2 (by decide),
          (requireProfile_correct { exampleState with version := 460, extensionBehavior := [] }
            6 "f").2.2 exampleState rfl ▸ rfl⟩

/-- C7: checkDeprecated emits nothing outside the profile mask or below the
deprecation version; at or above it inside the mask it emits the
deprecation error under forwardCompatible, otherwise the deprecation
warning unless warnings are suppressed, in which case nothing. -/
theorem checkDeprecated_correct (s : TParseVersions) (profileMask depVersion : Nat)
    (fd : String) :
    (s.profile.bit &&& profileMask = 0 → checkDeprecated s profileMask depVersion fd = [])
    ∧ (s.version < depVersion → checkDeprecated s profileMask depVersion fd = [])
    ∧ (s.profile.bit &&& profileMask ≠ 0 → s.version ≥ depVersion →
        (s.forwardCompatible = true →
          checkDeprecated s profileMask depVersion fd
            = [.err "deprecated, may be removed in future release" fd ""])
        ∧ (s.forwardCompatible = false → s.suppressWarnings = false →
          checkDeprecated s profileMask depVersion fd
            = [.infoWarn (fd ++ " deprecated in version " ++ toString depVersion ++
                          "; may be removed in future release")])
        ∧ (s.forwardCompatible = false → s.suppressWarnings = true →
          checkDeprecated s profileMask depVersion fd = [])) := by
  refine ⟨fun h => by simp [checkDeprecated, h],
          fun h => by simp [checkDeprecated, Nat.not_le.mpr h],
          fun hmask hver => ⟨fun hfc => by simp [checkDeprecated, hmask, hver, hfc],
            fun hfc hsw => by simp [checkDeprecated, hmask, hver, hfc, hsw],
            fun hfc hsw => by simp [checkDeprecated, hmask, hver, hfc, hsw]⟩⟩

/-- Witness for checkDeprecated_correct: a desktop state at version 400 with
a feature deprecated at 150 draws the warning, the error under
forwardCompatible, and nothing with warnings suppressed. -/
theorem checkDeprecated_correct_witness :
    checkDeprecated compatState 4 150 "f"
      = [.infoWarn "f deprecated in version 150; may be removed in future release"]
    ∧ checkDeprecated { compatState with forwardCompatible := true } 4 150 "f"
      = [.err "deprecated, may be removed in future release" "f" ""]
    ∧ checkDeprecated { compatState with suppressWarnings := true } 4 150 "f" = [] := by
  refine ⟨?_, ?_, ?_⟩
  · have h := (checkDeprecated_correct compatState 4 150 "f").2.2 (by decide) (by decide)
    exact h.2.1 rfl rfl
  · have h := (checkDeprecated_correct { compatState with forwardCompatible := true }
      4 150 "f").2.2 (by decide) (by decide)
    exact h.1 rfl
  · have h := (checkDeprecated_correct { compatState with suppressWarnings := true }
      4 150 "f").2.2 (by decide) (by decide)
    exact h.2.2 rfl rfl

/-- C10: profileRequires called with minVersion 0 and no extensions (as the
single-extension entry point does for a null extension pointer) always
emits the version-or-extension error when the active profile is in the
mask, no matter the version, and neither consults nor changes the
extension-behavior table. -/
theorem profileRequires_minVersion_zero (s : TParseVersions) (profileMask : Nat)
    (fd : String) :
    (∀ minVersion, profileRequiresSingle s profileMask minVersion none fd
       = profileRequires s profileMask minVersion [] fd)
    ∧ (s.profile.bit &&& profileMask ≠ 0 →
        profileRequires s profileMask 0 [] fd
          = [.err "not supported for this version or the enabled extensions" fd ""])
    ∧ (s.profile.bit &&& profileMask = 0 → profileRequires s profileMask 0 [] fd = [])
    ∧ (∀ v, profileRequires { s with version := v } profileMask 0 [] fd
         = profileRequires s profileMask 0 [] fd)
    ∧ (∀ m, profileRequires { s with extensionBehavior := m } profileMask 0 [] fd
         = profileRequires s profileMask 0 [] fd) := by
  refine ⟨fun minVersion => rfl, fun h => by simp [profileRequires, h],
          fun h => by simp [profileRequires, h], fun v => by simp [profileRequires],
          fun m => by simp [profileRequires]⟩

/-- Witness for profileRequires_minVersion_zero: in the ES example state at
version 100, an ES-masked minVersion-0 check with no extension errors even
at version 9999, and is silent outside the mask. -/
theorem profileRequires_minVersion_zero_witness :
    profileRequiresSingle exampleState 8 0 none "f"
      = profileRequires exampleState 8 0 [] "f"
    ∧ profileRequires { exampleState with version := 9999 } 8 0 [] "f"
      = [.err "not supported for this version or the enabled extensions" "f" ""]
    ∧ profileRequires exampleState 6 0 [] "f" = [] := by
  refine ⟨(profileRequires_minVersion_zero exampleState 8 "f").1 0, ?_, ?_⟩
  · exact (profileRequires_minVersion_zero { exampleState with version := 9999 } 8 "f").2.1
      (by decide)
  · exact (profileRequires_minVersion_zero exampleState 6 "f").2.2.1 (by decide)

/-! ### Behavior-state lemmas for directive processing -/

lemma findExt_map_const (m : List (String × TExtensionBehavior)) (b : TExtensionBehavior)
    (e : String) :
    findExt (m.map (fun kv => (kv.1, b))) e = (findExt m e).map (fun _ => b) := by
  induction m with
  | nil => rfl
  | cons kv rest ih =>
    by_cases h : kv.1 = e <;> simp [findExt, h, ih]

lemma findExt_setExt_self (m : List (String × TExtensionBehavior)) (k : String)
    (b : TExtensionBehavior) (h : (findExt m k).isSome) :
    findExt (setExt m k b) k = some b := by
  induction m with
  | nil => simp [findExt] at h
  | cons kv rest ih =>
    by_cases hk : kv.1 = k
    · simp [setExt, findExt, hk]
    · simp [setExt, findExt, hk] at h ⊢
      exact ih h

lemma findExt_setExt_other (m : List (String × TExtensionBehavior)) (k k2 : String)
    (b : TExtensionBehavior) (h : k2 ≠ k) :
    findExt (setExt m k b) k2 = findExt m k2 := by
  induction m with
  | nil => rfl
  | cons kv rest ih =>
    by_cases hk : kv.1 = k
    · subst hk
      have h2 : kv.1 ≠ k2 := fun hc => h hc.symm
      simp [setExt, findExt, h2]
    · simp [setExt, findExt, hk, ih]

lemma isSome_findExt_setExt (m : List (String × TExtensionBehavior)) (k : String)
    (b : TExtensionBehavior) (k2 : String) :
    (findExt (setExt m k b) k2).isSome = (findExt m k2).isSome := by
  by_cases h : k2 = k
  · subst h
    cases hm : findExt m k2 with
    | none =>
      have : setExt m k2 b = m := by
        induction m with
        | nil => rfl
        | cons kv rest ih =>
          by_cases hk : kv.1 = k2
          · simp [findExt, hk] at hm
          · simp [findExt, hk] at hm
            simp [setExt, hk, ih hm]
      simp [this, hm]
    | some v =>
      rw [findExt_setExt_self m k2 b (by simp [hm])]
      simp [hm]
  · rw [findExt_setExt_other m k k2 b h]

lemma findExt_foldl_setExt_not_mem (b : TExtensionBehavior) :
    ∀ (S : List String) (m : List (String × TExtensionBehavior)) (e : String), e ∉ S →
    findExt (S.foldl (fun m2 k => setExt m2 k b) m) e = findExt m e := by
  intro S
  induction S with
  | nil => intro m e _; rfl
  | cons k rest ih =>
    intro m e he
    rw [List.foldl_cons, ih _ e (fun hc => he (List.mem_cons_of_mem k hc)),
        findExt_setExt_other m k e b (fun hc => he (hc ▸ List.mem_cons_self k rest))]

lemma isSome_findExt_foldl_setExt (b : TExtensionBehavior) :
    ∀ (S : List String) (m : List (String × TExtensionBehavior)) (e : String),
    (findExt (S.foldl (fun m2 k => setExt m2 k b) m) e).isSome = (findExt m e).isSome := by
  intro S
  induction S with
  | nil => intro m e; rfl
  | cons k rest ih =>
    intro m e
    rw [List.foldl_cons, ih, isSome_findExt_setExt]

lemma findExt_foldl_setExt_mem (b : TExtensionBehavior) :
    ∀ (S : List String) (m : List (String × TExtensionBehavior)) (e : String),
    e ∈ S → (findExt m e).isSome →
    findExt (S.foldl (fun m2 k => setExt m2 k b) m) e = some b := by
  intro S
  induction S with
  | nil => intro m e he; cases he
  | cons k rest ih =>
    intro m e he hsome
    rw [List.foldl_cons]
    by_cases hek : e ∈ rest
    · exact ih _ e hek (by rw [isSome_findExt_setExt]; exact hsome)
    · have hkk : e = k := by
        rcases List.mem_cons.mp he with h | h
        · exact h
        · exact absurd h hek
      subst hkk
      rw [findExt_foldl_setExt_not_mem b rest _ e hek, findExt_setExt_self m e b hsome]

lemma updateExtensionBehavior_eb (s : TParseVersions) (ext : String)
    (b : TExtensionBehavior) (hall : ext ≠ "all")
    (h : (findExt s.extensionBehavior ext).isSome) :
    (updateExtensionBehavior s ext b).extensionBehavior = setExt s.extensionBehavior ext b := by
  cases hm : findExt s.extensionBehavior ext with
  | none => simp [hm] at h
  | some prev =>
    simp only [updateExtensionBehavior, if_neg hall, hm]
    split <;> split <;> rfl

lemma extensionTargets_eq_nil (e : String) (h : e ∉ registryNames) :
    extensionTargets e = [] := by
  unfold extensionTargets
  split_ifs with h1 h2 h3 h4 h5 h6
  · subst h1; exact absurd (by decide) h
  · subst h2; exact absurd (by decide) h
  · subst h3; exact absurd (by decide) h
  · subst h4; exact absurd (by decide) h
  · subst h5; exact absurd (by decide) h
  · subst h6; exact absurd (by decide) h
  · rfl

lemma updateStr_eb :
    ∀ (fuel : Nat) (tok : String) (b : TExtensionBehavior),
    mapBehaviorToken tok = some b →
    ∀ (ext : String) (s : TParseVersions),
    (∀ e ∈ updateSeq fuel ext, e ≠ "all" ∧ (findExt s.extensionBehavior e).isSome) →
    (updateExtensionBehaviorStr fuel s ext tok).extensionBehavior
      = (updateSeq fuel ext).foldl (fun m e => setExt m e b) s.extensionBehavior := by
  intro fuel
  induction fuel with
  | zero => intro tok b htok ext s hdom; rfl
  | succ fuel ih =>
    intro tok b htok ext s hdom
    have hext := hdom ext (by simp [updateSeq])
    have haux : ∀ (ts : List String) (s1 : TParseVersions),
        (∀ e ∈ ts.flatMap (updateSeq fuel), e ≠ "all" ∧ (findExt s1.extensionBehavior e).isSome) →
        ((ts.foldl (fun st e => updateExtensionBehaviorStr fuel st e tok) s1).extensionBehavior
          = (ts.flatMap (updateSeq fuel)).foldl (fun m e => setExt m e b) s1.extensionBehavior) := by
      intro ts
      induction ts with
      | nil => intro s1 _; rfl
      | cons t rest ihts =>
        intro s1 h
        rw [List.foldl_cons, List.flatMap_cons, List.foldl_append]
        have h1 : ∀ e ∈ updateSeq fuel t, e ≠ "all" ∧ (findExt s1.extensionBehavior e).isSome :=
          fun e he => h e (by rw [List.flatMap_cons]; exact List.mem_append_left _ he)
        have hhead := ih tok b htok t s1 h1
        have hrest : ∀ e ∈ rest.flatMap (updateSeq fuel), e ≠ "all" ∧
            (findExt (updateExtensionBehaviorStr fuel s1 t tok).extensionBehavior e).isSome := by
          intro e he
          have h2 := h e (by rw [List.flatMap_cons]; exact List.mem_append_right _ he)
          refine ⟨h2.1, ?_⟩
          rw [hhead, isSome_findExt_foldl_setExt]
          exact h2.2
        rw [ihts _ hrest, hhead]
    rw [updateExtensionBehaviorStr, htok]
    rw [haux (extensionTargets ext) (updateExtensionBehavior s ext b) ?_]
    · rw [updateExtensionBehavior_eb s ext b hext.1 hext.2]
      show _ = ((ext :: (extensionTargets ext).flatMap (updateSeq fuel)).foldl
        (fun m e => setExt m e b) s.extensionBehavior)
      rw [List.foldl_cons]
    · intro e he
      have h2 := hdom e (by
        show e ∈ updateSeq (fuel + 1) ext
        unfold updateSeq
        exact List.mem_cons_of_mem ext he)
      refine ⟨h2.1, ?_⟩
      rw [updateExtensionBehavior_eb s ext b hext.1 hext.2, isSome_findExt_setExt]
      exact h2.2

/-- C4: a directive on the umbrella extension GL_ANDROID_extension_pack_es31a
drives every extension in its transitive implication set (the twelve listed
extensions, GL_EXT_shader_io_blocks also via the geometry and tessellation
edges) to the directive's behavior: enable sets them all to EBhEnable and
disable sets them all to EBhDisable. -/
theorem aep_propagation (s : TParseVersions) (tok : String) (b : TExtensionBehavior)
    (htok : (tok = "enable" ∧ b = .EBhEnable) ∨ (tok = "disable" ∧ b = .EBhDisable))
    (hdom : ∀ e ∈ aepClosure, (findExt s.extensionBehavior e).isSome) :
    ∀ e ∈ aepClosure,
      findExt (applyDirective s "GL_ANDROID_extension_pack_es31a" tok).extensionBehavior e
        = some b := by
  have hseq_sub : ∀ e ∈ updateSeq 3 "GL_ANDROID_extension_pack_es31a", e ∈ aepClosure := by
    decide
  have hcl_sub : ∀ e ∈ aepClosure, e ∈ updateSeq 3 "GL_ANDROID_extension_pack_es31a" := by
    decide
  have hall : ∀ e ∈ updateSeq 3 "GL_ANDROID_extension_pack_es31a", e ≠ "all" := by decide
  have hmap : mapBehaviorToken tok = some b := by
    rcases htok with ⟨h1, h2⟩ | ⟨h1, h2⟩ <;> subst h1 <;> subst h2 <;> rfl
  intro e he
  have heq := updateStr_eb 3 tok b hmap "GL_ANDROID_extension_pack_es31a" s
    (fun e2 he2 => ⟨hall e2 he2, hdom e2 (hseq_sub e2 he2)⟩)
  unfold applyDirective
  rw [heq]
  exact findExt_foldl_setExt_mem b _ _ e (hcl_sub e he) (hdom e he)

/-- Witness for aep_propagation: from the freshly initialized example state,
enabling the umbrella stores EBhEnable for GL_EXT_shader_io_blocks and
disabling it stores EBhDisable for GL_EXT_geometry_shader. -/
theorem aep_propagation_witness :
    findExt (applyDirective exampleState "GL_ANDROID_extension_pack_es31a"
        "enable").extensionBehavior "GL_EXT_shader_io_blocks"
      = some .EBhEnable
    ∧ findExt (applyDirective exampleState "GL_ANDROID_extension_pack_es31a"
        "disable").extensionBehavior "GL_EXT_geometry_shader"
      = some .EBhDisable := by
  constructor
  · exact aep_propagation exampleState "enable" .EBhEnable (Or.inl ⟨rfl, rfl⟩) (by decide)
      "GL_EXT_shader_io_blocks" (by decide)
  · exact aep_propagation exampleState "disable" .EBhDisable (Or.inr ⟨rfl, rfl⟩) (by decide)
      "GL_EXT_geometry_shader" (by decide)

lemma all_update_not_reqen (s : TParseVersions) (b : TExtensionBehavior)
    (hb : ¬(b = .EBhRequire ∨ b = .EBhEnable)) :
    updateExtensionBehavior s "all" b
      = { s with extensionBehavior := s.extensionBehavior.map (fun kv => (kv.1, b)) } := by
  simp [updateExtensionBehavior, hb]

/-- C5: a directive on the special id all with behavior Require or Enable
emits the invalid-all-behavior error and changes nothing; with Disable or
Warn it rewrites every registered extension's stored behavior to the given
one, emitting nothing. -/
theorem all_directive_correct (s : TParseVersions) (b : TExtensionBehavior) :
    (b = .EBhRequire ∨ b = .EBhEnable →
      updateExtensionBehavior s "all" b
        = { s with messages := s.messages ++
            [.err "extension 'all' cannot have 'require' or 'enable' behavior" "#extension" ""] })
    ∧ (b = .EBhDisable ∨ b = .EBhWarn →
        (updateExtensionBehavior s "all" b).extensionBehavior
          = s.extensionBehavior.map (fun kv => (kv.1, b))
        ∧ (updateExtensionBehavior s "all" b).messages = s.messages
        ∧ ∀ e, (findExt s.extensionBehavior e).isSome →
            findExt (updateExtensionBehavior s "all" b).extensionBehavior e = some b) := by
  constructor
  · rintro (h | h) <;> subst h <;> simp [updateExtensionBehavior]
  · rintro (h | h) <;> subst h <;>
      · rw [all_update_not_reqen s _ (by simp)]
        refine ⟨rfl, rfl, ?_⟩
        intro e he
        show findExt (s.extensionBehavior.map _) e = _
        rw [findExt_map_const]
        cases hm : findExt s.extensionBehavior e with
        | none => rw [hm] at he; simp at he
        | some v => simp

/-- Witness for all_directive_correct: from the freshly initialized example
state, all-require errors without mutating any stored behavior, and
all-warn rewrites GL_OES_texture_3D to EBhWarn with no message. -/
theorem all_directive_correct_witness :
    updateExtensionBehavior exampleState "all" .EBhRequire
      = { exampleState with messages :=
          [.err "extension 'all' cannot have 'require' or 'enable' behavior" "#extension" ""] }
    ∧ findExt (updateExtensionBehavior exampleState "all" .EBhWarn).extensionBehavior
        "GL_OES_texture_3D" = some .EBhWarn := by
  constructor
  · exact (all_directive_correct exampleState .EBhRequire).1 (Or.inl rfl)
  · exact ((all_directive_correct exampleState .EBhWarn).2 (Or.inr rfl)).2.2
      "GL_OES_texture_3D" (by decide)

/-- C6: a directive naming an id that the registry does not know (and that
is not the special id all) emits the unsupported-extension diagnostic --
a hard error for require, a warning for enable, disable and warn -- and
returns the state otherwise unchanged: no stored behavior is touched and,
since every implication-graph trigger is a registered extension, no
propagation runs. -/
theorem unknown_extension_directive (s : TParseVersions) (ext tok : String)
    (hall : ext ≠ "all") (hreg : ext ∉ registryNames)
    (hs : findExt s.extensionBehavior ext = none)
    (htok : tok = "require" ∨ tok = "enable" ∨ tok = "disable" ∨ tok = "warn") :
    applyDirective s ext tok
      = { s with messages := s.messages ++
          [if tok = "require" then Diag.err "extension not supported:" "#extension" ext
           else Diag.warnMsg "extension not supported:" "#extension" ext] } := by
  have htargets : extensionTargets ext = [] := extensionTargets_eq_nil ext hreg
  rcases htok with h | h | h | h <;> subst h <;>
    simp [applyDirective, updateExtensionBehaviorStr, mapBehaviorToken,
          updateExtensionBehavior, hall, hs, htargets]

/-- Witness for unknown_extension_directive: in the example state, an
unregistered id draws a hard error under require and a warning under
disable, leaving the state intact. -/
theorem unknown_extension_directive_witness :
    applyDirective exampleState "GL_EXT_not_in_registry" "require"
      = { exampleState with messages :=
          [.err "extension not supported:" "#extension" "GL_EXT_not_in_registry"] }
    ∧ applyDirective exampleState "GL_EXT_not_in_registry" "disable"
      = { exampleState with messages :=
          [.warnMsg "extension not supported:" "#extension" "GL_EXT_not_in_registry"] } := by
  constructor
  · have h := unknown_extension_directive exampleState "GL_EXT_not_in_registry" "require"
      (by decide) (by decide) (by decide) (Or.inl rfl)
    simpa using h
  · have h := unknown_extension_directive exampleState "GL_EXT_not_in_registry" "disable"
      (by decide) (by decide) (by decide) (Or.inr (Or.inr (Or.inl rfl)))
    simpa using h

/-! ### Preamble lemmas -/

lemma not_mem_ite_nil {x : String} {c : Prop} [Decidable c] {l : List String}
    (h : x ∉ l) : x ∉ (if c then l else []) := by
  split
  · exact h
  · simp

lemma ne_append_num (x pre : String) (n i : Nat) (hi : i < pre.data.length)
    (hne : x.data[i]? ≠ pre.data[i]?) :
    x ≠ pre ++ toString n ++ "\n" := by
  intro h
  have h1 := congrArg String.data h
  rw [String.data_append, String.data_append] at h1
  have h2 := congrArg (fun l => l[i]?) h1
  simp only at h2
  rw [List.getElem?_append_left, List.getElem?_append_left hi] at h2
  · exact hne h2
  · rw [List.length_append]
    exact Nat.lt_of_lt_of_le hi (Nat.le_add_right _ _)

lemma glEs_ne_vulkan (n : Nat) :
    "#define GL_ES 1\n" ≠ "#define VULKAN " ++ toString n ++ "\n" :=
  ne_append_num _ _ n 8 (by decide) (by decide)

lemma glEs_ne_spirv (n : Nat) :
    "#define GL_ES 1\n" ≠ "#define GL_SPIRV " ++ toString n ++ "\n" :=
  ne_append_num _ _ n 11 (by decide) (by decide)

lemma arb_ne_vulkan (n : Nat) :
    "#define GL_ARB_texture_rectangle 1\n" ≠ "#define VULKAN " ++ toString n ++ "\n" :=
  ne_append_num _ _ n 8 (by decide) (by decide)

lemma arb_ne_spirv (n : Nat) :
    "#define GL_ARB_texture_rectangle 1\n" ≠ "#define GL_SPIRV " ++ toString n ++ "\n" :=
  ne_append_num _ _ n 11 (by decide) (by decide)

lemma google_mem_getPreambleLines (s : TParseVersions) :
    "#define GL_GOOGLE_include_directive 1\n" ∈ getPreambleLines s := by
  unfold getPreambleLines
  exact List.mem_append_left _ (List.mem_append_left _ (List.mem_append_right _ (by decide)))

lemma not_mem_getPreambleLines (s : TParseVersions) (x : String)
    (hbase : x ∉ (if s.profile = .EEsProfile then esProfileLines
       else nonEsProfileLines ++
         (if s.version ≥ 150 then
            ["#define GL_core_profile 1\n"] ++
              (if s.profile = .ECompatibilityProfile then
                ["#define GL_compatibility_profile 1\n"]
               else [])
          else [])))
    (hdg : x ∉ ["#define GL_EXT_device_group 1\n", "#define GL_EXT_multiview 1\n"])
    (hovr : x ∉ ["#define GL_OVR_multiview 1\n", "#define GL_OVR_multiview2 1\n"])
    (hg : x ∉ ["#define GL_GOOGLE_cpp_style_line_directive 1\n",
               "#define GL_GOOGLE_include_directive 1\n"])
    (hv : ∀ n : Nat, x ≠ "#define VULKAN " ++ toString n ++ "\n")
    (hsp : ∀ n : Nat, x ≠ "#define GL_SPIRV " ++ toString n ++ "\n") :
    x ∉ getPreambleLines s := by
  intro hmem
  unfold getPreambleLines at hmem
  rcases List.mem_append.mp hmem with h | h
  · rcases List.mem_append.mp h with h | h
    · rcases List.mem_append.mp h with h | h
      · rcases List.mem_append.mp h with h | h
        · rcases List.mem_append.mp h with h | h
          · exact hbase h
          · exact not_mem_ite_nil hdg h
        · exact not_mem_ite_nil hovr h
      · exact hg h
    · exact not_mem_ite_nil
        (fun hm2 => hv s.vulkanGlsl (List.mem_singleton.mp hm2)) h
  · exact not_mem_ite_nil
      (fun hm2 => hsp s.openGlSpv (List.mem_singleton.mp hm2)) h

/-- C2 counterexample: the preamble line sets of an ES compile unit (ES,
version 100) and a non-ES compile unit (compatibility, version 400) are not
disjoint -- both contain the fragment-precision macro line and the
include-directive macro line. -/
theorem preamble_shared_line_counterexample :
    "#define GL_FRAGMENT_PRECISION_HIGH 1\n" ∈ getPreambleLines exampleState
    ∧ "#define GL_FRAGMENT_PRECISION_HIGH 1\n" ∈ getPreambleLines compatState
    ∧ "#define GL_GOOGLE_include_directive 1\n" ∈ getPreambleLines exampleState
    ∧ "#define GL_GOOGLE_include_directive 1\n" ∈ getPreambleLines compatState := by
  refine ⟨by decide, by decide, by decide, by decide⟩

/-- C2 (amended): the macro sets of an ES-profile preamble and a non-ES
preamble are never disjoint -- the line-directive/include macro lines occur
in both outputs for every pair of inputs -- although each branch also has
lines exclusive to it: the GL_ES line occurs in every ES output and never
in a non-ES output, and the GL_ARB_texture_rectangle line occurs in every
non-ES output and never in an ES output. -/
theorem preamble_es_nonEs_overlap (s1 s2 : TParseVersions)
    (h1 : s1.profile = .EEsProfile) (h2 : s2.profile ≠ .EEsProfile) :
    ("#define GL_GOOGLE_include_directive 1\n" ∈ getPreambleLines s1
      ∧ "#define GL_GOOGLE_include_directive 1\n" ∈ getPreambleLines s2)
    ∧ ("#define GL_ES 1\n" ∈ getPreambleLines s1
      ∧ "#define GL_ES 1\n" ∉ getPreambleLines s2)
    ∧ ("#define GL_ARB_texture_rectangle 1\n" ∈ getPreambleLines s2
      ∧ "#define GL_ARB_texture_rectangle 1\n" ∉ getPreambleLines s1) := by
  refine ⟨⟨google_mem_getPreambleLines s1, google_mem_getPreambleLines s2⟩, ⟨?_, ?_⟩, ⟨?_, ?_⟩⟩
  · unfold getPreambleLines
    rw [if_pos h1]
    exact List.mem_append_left _ (List.mem_append_left _ (List.mem_append_left _
      (List.mem_append_left _ (List.mem_append_left _ (by decide)))))
  · refine not_mem_getPreambleLines s2 _ ?_ (by decide) (by decide) (by decide)
      glEs_ne_vulkan glEs_ne_spirv
    rw [if_neg h2]
    intro h
    rcases List.mem_append.mp h with h | h
    · exact absurd h (by decide)
    · refine not_mem_ite_nil ?_ h
      intro h3
      rcases List.mem_append.mp h3 with h3 | h3
      · exact absurd h3 (by decide)
      · exact not_mem_ite_nil (by decide) h3
  · unfold getPreambleLines
    rw [if_neg h2]
    exact List.mem_append_left _ (List.mem_append_left _ (List.mem_append_left _
      (List.mem_append_left _ (List.mem_append_left _ (List.mem_append_left _ (by decide))))))
  · refine not_mem_getPreambleLines s1 _ ?_ (by decide) (by decide) (by decide)
      arb_ne_vulkan arb_ne_spirv
    rw [if_pos h1]
    decide

/-- Witness for preamble_es_nonEs_overlap: at the concrete pair (ES version
100, compatibility version 400) the include-directive line is in both
outputs and the GL_ES line is only in the ES output. -/
theorem preamble_es_nonEs_overlap_witness :
    "#define GL_GOOGLE_include_directive 1\n" ∈ getPreambleLines exampleState
    ∧ "#define GL_GOOGLE_include_directive 1\n" ∈ getPreambleLines compatState
    ∧ "#define GL_ES 1\n" ∉ getPreambleLines compatState := by
  have h := preamble_es_nonEs_overlap exampleState compatState rfl (by decide)
  exact ⟨h.1.1, h.1.2, h.2.1.2⟩

/-! ### Determinism of the preamble builder -/

lemma getPreamble_congr (s t : TParseVersions) (p q : String) (h : configEq s t) :
    getPreamble s p = getPreamble t q := by
  obtain ⟨h1, h2, h3, h4⟩ := h
  unfold getPreamble getPreambleLines
  rw [h1, h2, h3, h4]

lemma configEq_refl (s : TParseVersions) : configEq s s := ⟨rfl, rfl, rfl, rfl⟩

lemma configEq_trans {s t u : TParseVersions} (h1 : configEq s t) (h2 : configEq t u) :
    configEq s u :=
  ⟨h1.1.trans h2.1, h1.2.1.trans h2.2.1, h1.2.2.1.trans h2.2.2.1, h1.2.2.2.trans h2.2.2.2⟩

lemma updateExtensionBehavior_configEq (s : TParseVersions) (e : String)
    (b : TExtensionBehavior) : configEq (updateExtensionBehavior s e b) s := by
  unfold updateExtensionBehavior
  split
  · split
    · exact ⟨rfl, rfl, rfl, rfl⟩
    · exact ⟨rfl, rfl, rfl, rfl⟩
  · split
    · split <;> exact ⟨rfl, rfl, rfl, rfl⟩
    · split <;> split <;> exact ⟨rfl, rfl, rfl, rfl⟩

lemma updateExtensionBehaviorStr_configEq :
    ∀ (fuel : Nat) (s : TParseVersions) (e t : String),
    configEq (updateExtensionBehaviorStr fuel s e t) s := by
  intro fuel
  induction fuel with
  | zero => intro s e t; exact configEq_refl s
  | succ fuel ih =>
    intro s e t
    rw [updateExtensionBehaviorStr]
    cases mapBehaviorToken t with
    | none => exact ⟨rfl, rfl, rfl, rfl⟩
    | some b =>
      have haux : ∀ (ts : List String) (s1 : TParseVersions),
          configEq (ts.foldl (fun st e2 => updateExtensionBehaviorStr fuel st e2 t) s1) s1 := by
        intro ts
        induction ts with
        | nil => intro s1; exact configEq_refl s1
        | cons t2 rest ihts =>
          intro s1
          rw [List.foldl_cons]
          exact configEq_trans (ihts _) (ih s1 t2 t)
      exact configEq_trans (haux _ _) (updateExtensionBehavior_configEq s e b)

lemma applyDirectives_configEq (ds : List (String × String)) :
    ∀ s : TParseVersions,
    configEq (ds.foldl (fun st d => applyDirective st d.1 d.2) s) s := by
  induction ds with
  | nil => intro s; exact configEq_refl s
  | cons d rest ih =>
    intro s
    rw [List.foldl_cons]
    exact configEq_trans (ih _) (updateExtensionBehaviorStr_configEq 3 s d.1 d.2)

/-- C8: the preamble builder is deterministic: any two states agreeing on
profile, version and the SPIR-V/Vulkan target versions produce
byte-identical preamble text, whatever their extension-behavior state,
sink contents or requested extensions, and whatever string the output
buffer held before; in particular any earlier sequence of extension
directives leaves the preamble unchanged. -/
theorem getPreamble_deterministic (s1 s2 : TParseVersions) (p1 p2 : String)
    (hp : s1.profile = s2.profile) (hv : s1.version = s2.version)
    (hvg : s1.vulkanGlsl = s2.vulkanGlsl) (hog : s1.openGlSpv = s2.openGlSpv) :
    getPreamble s1 p1 = getPreamble s2 p2
    ∧ ∀ ds : List (String × String),
        getPreamble (ds.foldl (fun st d => applyDirective st d.1 d.2) s1) p1
          = getPreamble s1 p2 := by
  refine ⟨getPreamble_congr s1 s2 p1 p2 ⟨hp, hv, hvg, hog⟩, fun ds => ?_⟩
  exact getPreamble_congr _ s1 p1 p2 (applyDirectives_configEq ds s1)

/-- Witness for getPreamble_deterministic: two ES states that differ in
extension-behavior table, prior buffer contents and sink contents produce
identical preambles, and applying an enable directive first changes
nothing. -/
theorem getPreamble_deterministic_witness :
    getPreamble exampleState "junk"
      = getPreamble { exampleState with extensionBehavior := [], messages :=
          [.infoNone "x"] } ""
    ∧ getPreamble ([("GL_OES_standard_derivatives", "enable")].foldl
        (fun st d => applyDirective st d.1 d.2) exampleState) "junk"
      = getPreamble exampleState "" := by
  have h := getPreamble_deterministic exampleState
    { exampleState with extensionBehavior := [], messages := [.infoNone "x"] }
    "junk" "" rfl rfl rfl rfl
  exact ⟨h.1, (getPreamble_deterministic exampleState exampleState "junk" ""
    rfl rfl rfl rfl).2 [("GL_OES_standard_derivatives", "enable")]⟩

/-! ### requireExtensions under relaxedErrors -/

/-- C1 counterexample: in the relaxed-errors example state, a single
extension id absent from the registry is not promoted to a warning-permit:
requireExtensions emits the missing-extension hard error naming it, not
the pair of promotion warnings. -/
theorem missing_not_promoted_counterexample :
    requireExtensions relaxedState ["GL_EXT_not_in_registry"] "f"
      = [.err "required extension not requested:" "f" "GL_EXT_not_in_registry"]
    ∧ (requireExtensions relaxedState ["GL_EXT_not_in_registry"] "f").countP
        Diag.isError = 1 := by
  exact ⟨rfl, rfl⟩

/-- C1 (amended): the relaxed-errors promotion of requireExtensions applies
only to extensions stored as EBhDisable: with relaxedErrors set, a single
extension that resolves to EBhMissing still draws the missing-extension
error, while one stored as EBhDisable is promoted to a warning-permit with
the must-be-enabled notice.  (For the pure permission result of
profileRequires, EBhMissing and EBhDisable remain equivalent: neither
permits.) -/
theorem requireExtensions_relaxed (s : TParseVersions) (ext fd : String)
    (hRelax : s.relaxedErrors = true) :
    (findExt s.extensionBehavior ext = none →
      requireExtensions s [ext] fd
        = [.err "required extension not requested:" fd ext])
    ∧ (findExt s.extensionBehavior ext = some .EBhDisable →
      requireExtensions s [ext] fd
        = [.infoWarn "The following extension must be enabled to use this feature:",
           .infoWarn ("extension " ++ ext ++ " is being used for " ++ fd)])
    ∧ (∀ profileMask minVersion,
        findExt s.extensionBehavior ext = none →
          profileRequires s profileMask minVersion [ext] fd
            = profileRequires { s with
                extensionBehavior := (ext, .EBhDisable) :: s.extensionBehavior }
                profileMask minVersion [ext] fd) := by
  refine ⟨?_, ?_, ?_⟩
  · intro h
    simp [requireExtensions, checkExtensionsRequested, checkExtensionsWarn,
          getExtensionBehavior, h, hRelax]
  · intro h
    simp [requireExtensions, checkExtensionsRequested, checkExtensionsWarn,
          getExtensionBehavior, h, hRelax]
  · intro profileMask minVersion h
    have hb : getExtensionBehavior { s with
        extensionBehavior := (ext, TExtensionBehavior.EBhDisable) :: s.extensionBehavior }
        ext = .EBhDisable := by
      simp [getExtensionBehavior, findExt]
    have hb2 : getExtensionBehavior s ext = .EBhMissing := by
      simp [getExtensionBehavior, h]
    simp [profileRequires, profileRequiresCheck, hb, hb2]

/-- Witness for requireExtensions_relaxed: in the relaxed-errors example
state, GL_OES_not_registered (missing) draws the error while
GL_OES_standard_derivatives (stored Disable) is promoted to warnings. -/
theorem requireExtensions_relaxed_witness :
    requireExtensions relaxedState ["GL_OES_not_registered"] "f"
      = [.err "required extension not requested:" "f" "GL_OES_not_registered"]
    ∧ requireExtensions relaxedState ["GL_OES_standard_derivatives"] "f"
      = [.infoWarn "The following extension must be enabled to use this feature:",
         .infoWarn "extension GL_OES_standard_derivatives is being used for f"] := by
  constructor
  · exact (requireExtensions_relaxed relaxedState "GL_OES_not_registered" "f" rfl).1
      (by decide)
  · exact (requireExtensions_relaxed relaxedState "GL_OES_standard_derivatives" "f" rfl).2.1
      (by decide)

end Glslang
